import Mathlib

/-!
Verification of the Aerostack Node.js realtime client (`src/sdk/realtime.ts`).

The development shallowly embeds the connection manager (`NodeRealtimeClient`)
and topic subscriptions (`RealtimeSubscription`) as pure Lean functions over an
explicit client state.  Stateful methods become functions
`ClientState → ClientState × outputs`, where the outputs record the frames
written to the live socket (`ws.send`) and the handler invocations performed
during dispatch.  Machine numbers are `Nat`/`ℚ`; the `Math.random()` sample of
the jitter computation is passed in explicitly as a rational in `[0, 1)`.
-/

namespace Realtime

/-- `RealtimeEvent` (realtime.ts line 6): the registrable event kinds
`'INSERT' | 'UPDATE' | 'DELETE' | '*'`; `wild` embeds `'*'`. -/
inductive EventKind where
  | INSERT
  | UPDATE
  | DELETE
  | wild
deriving DecidableEq, Repr

/-- The `type` discriminator of an inbound data frame
(`'db_change' | 'chat_message'`, realtime.ts line 22). -/
inductive PType where
  | dbChange
  | chatMessage
deriving DecidableEq, Repr

/-- A registered callback (`RealtimeCallback`).  Callbacks are opaque
side-effecting functions; the embedding keeps an identifier and whether the
call raises, which is all dispatch can observe through `try`/`catch`. -/
structure Handler where
  id : Nat
  throws : Bool
deriving DecidableEq, Repr

/-- `RealtimePayload` (realtime.ts lines 21-29): an inbound data frame.
`operation` is `none` when the frame carries no registrable operation kind
(e.g. a `chat_message` frame, whose `operation` field is absent), matching the
code's `this.callbacks.get(payload.operation)` returning `undefined` then. -/
structure Payload where
  ptype : PType
  topic : String
  operation : Option EventKind
  data : String
deriving DecidableEq, Repr

/-- `RealtimeSubscriptionOptions` (realtime.ts lines 14-17): the optional
legacy event filter and the opaque filter record. -/
structure SubscriptionOptions where
  event : Option EventKind := none
  filter : Option String := none
deriving DecidableEq, Repr

/-- The outbound frames built by the client (realtime.ts: `subscribe`,
`unsubscribe`, `setToken`, `startHeartbeat`, `sendChat`); `raw` stands for an
arbitrary opaque command handed to `_send`. -/
inductive Frame where
  | subscribeF (topic : String) (filter : Option String)
  | unsubscribeF (topic : String)
  | auth (token : String)
  | ping
  | chat (roomId : String) (text : String)
  | raw (s : String)
deriving DecidableEq, Repr

/-- `RealtimeSubscription`'s per-instance state (realtime.ts lines 44-50):
topic, options, the `Map<RealtimeEvent, Set<RealtimeCallback>>` of callbacks
(embedded as an association list of lists) and the `_isSubscribed` flag. -/
structure Subscription where
  topic : String
  options : SubscriptionOptions
  callbacks : List (EventKind × List Handler)
  isSubscribed : Bool
deriving DecidableEq, Repr

/-- `RealtimeStatus` (realtime.ts line 100). -/
inductive RealtimeStatus where
  | idle
  | connecting
  | connected
  | reconnecting
  | disconnected
deriving DecidableEq, Repr

/-- `NodeRealtimeClient`'s mutable state (realtime.ts lines 102-119).
`wsOpen` embeds `this.ws !== null`, `timerPending` embeds
`this.reconnectTimer !== null`, `heartbeatOn` embeds
`this.heartbeatTimer !== null`, `maxReconnectAttempts = none` embeds the
default `Infinity`, and `maxRetriesListeners` keeps the identifiers of the
registered retries-exhausted callbacks. -/
structure ClientState where
  projectId : String
  token : Option String
  status : RealtimeStatus
  wsOpen : Bool
  heartbeatOn : Bool
  timerPending : Bool
  reconnectAttempts : Nat
  sendQueue : List Frame
  subscriptions : List (String × Subscription)
  lastPong : Nat
  maxReconnectAttempts : Option Nat
  maxRetriesListeners : List Nat
deriving DecidableEq, Repr

/-- Lookup in the subscription map (`this.subscriptions.get(topic)`). -/
def findSub : List (String × Subscription) → String → Option Subscription
  | [], _ => none
  | (k, v) :: rest, t => if k = t then some v else findSub rest t

/-- Replace the entry of key `t` (mutation of the stored subscription
object through a held reference). -/
def updateSub : List (String × Subscription) → String → Subscription →
    List (String × Subscription)
  | [], _, _ => []
  | (k, v) :: rest, t, sub =>
      if k = t then (k, sub) :: rest else (k, v) :: updateSub rest t sub

/-- `this.callbacks.get(e)` as the list of handlers registered under `e`
(empty when the key is absent). -/
def getCbs : List (EventKind × List Handler) → EventKind → List Handler
  | [], _ => []
  | (k, hs) :: rest, e => if k = e then hs else getCbs rest e

/-- Running one callback: `cb(payload)` either returns or raises. -/
def runHandler (h : Handler) (_p : Payload) : Except String Unit :=
  if h.throws then Except.error "callback error" else Except.ok ()

/-- The dispatch loop body of `_emit` (realtime.ts lines 91-96):
`forEach(cb => { try { cb(payload) } catch (e) { console.error(...) } })`.
Each callback is invoked; a raising callback is caught (the error is only
logged) and iteration continues with the next callback either way.  The
result lists the identifiers of the invoked callbacks in order. -/
def forEachCaught (p : Payload) : List Handler → List Nat
  | [] => []
  | h :: rest =>
      match runHandler h p with
      | Except.ok _ => h.id :: forEachCaught p rest
      | Except.error _ => h.id :: forEachCaught p rest

/-- `RealtimeSubscription._emit` (realtime.ts lines 89-97): invoke the
callbacks registered under the payload's operation kind, then those
registered under `'*'`.  Returns the (unchanged) subscription and the
invoked callback identifiers. -/
def Subscription.emitS (sub : Subscription) (p : Payload) :
    Subscription × List Nat :=
  let exact :=
    match p.operation with
    | some e => getCbs sub.callbacks e
    | none => []
  (sub, forEachCaught p exact ++ forEachCaught p (getCbs sub.callbacks .wild))

/-- `NodeRealtimeClient._send` (realtime.ts lines 263-269): transmit on the
socket when it exists and the status is `connected`, otherwise append to the
outbound queue.  The second component lists the frames written to the wire. -/
def sendStep (st : ClientState) (f : Frame) : ClientState × List Frame :=
  if st.wsOpen ∧ st.status = RealtimeStatus.connected then (st, [f])
  else ({ st with sendQueue := st.sendQueue ++ [f] }, [])

/-- `RealtimeSubscription.subscribe` (realtime.ts lines 65-74), acting through
the manager's map entry of topic `t`: a no-op when already subscribed,
otherwise `_send` the subscribe control frame and set the flag. -/
def subscribeStep (st : ClientState) (t : String) : ClientState × List Frame :=
  match findSub st.subscriptions t with
  | none => (st, [])
  | some sub =>
      if sub.isSubscribed then (st, [])
      else
        let r := sendStep st (Frame.subscribeF sub.topic sub.options.filter)
        let sub' := { sub with isSubscribed := true }
        let st' := { r.1 with
          subscriptions := updateSub r.1.subscriptions t sub' }
        (st', r.2)

/-- `RealtimeSubscription.unsubscribe` (realtime.ts lines 76-84), acting
through the manager's map entry of topic `t`: a no-op when not subscribed,
otherwise `_send` the unsubscribe control frame, clear the flag and clear all
registered callbacks. -/
def unsubscribeStep (st : ClientState) (t : String) :
    ClientState × List Frame :=
  match findSub st.subscriptions t with
  | none => (st, [])
  | some sub =>
      if sub.isSubscribed then
        let r := sendStep st (Frame.unsubscribeF sub.topic)
        let sub' := { sub with isSubscribed := false, callbacks := [] }
        let st' := { r.1 with
          subscriptions := updateSub r.1.subscriptions t sub' }
        (st', r.2)
      else (st, [])

/-- `topic.includes('/') ? topic : `table/${topic}/${this.projectId}``
(realtime.ts line 245). -/
def fullTopicOf (projectId topic : String) : String :=
  if topic.toList.contains '/' then topic
  else "table/" ++ topic ++ "/" ++ projectId

/-- `NodeRealtimeClient.channel` (realtime.ts lines 244-252): return the
stored subscription of the fully-qualified topic, creating and storing a
fresh one when absent. -/
def channelStep (st : ClientState) (topic : String)
    (opts : SubscriptionOptions) : ClientState × Subscription :=
  let ft := fullTopicOf st.projectId topic
  match findSub st.subscriptions ft with
  | some sub => (st, sub)
  | none =>
      let sub : Subscription :=
        { topic := ft, options := opts, callbacks := [], isSubscribed := false }
      ({ st with subscriptions := st.subscriptions ++ [(ft, sub)] }, sub)

/-- `BASE_RECONNECT_MS = 1000`, `MAX_RECONNECT_MS = 30000` and
`Math.min(BASE_RECONNECT_MS * Math.pow(2, attempts), MAX_RECONNECT_MS)`
(realtime.ts lines 40-41 and 306). -/
def reconnectDelay (attempts : Nat) : Nat :=
  min (1000 * 2 ^ attempts) 30000

/-- `delay * JITTER_FACTOR * Math.random()` (realtime.ts lines 42 and 307),
with `JITTER_FACTOR = 0.3` and `r` the `Math.random()` sample. -/
def jitterOf (attempts : Nat) (r : ℚ) : ℚ :=
  (reconnectDelay attempts : ℚ) * (3 / 10) * r

/-- `this.reconnectAttempts >= this._maxReconnectAttempts`
(realtime.ts line 301); always false under the default `Infinity`. -/
def atMaxAttempts (st : ClientState) : Bool :=
  match st.maxReconnectAttempts with
  | none => false
  | some m => st.reconnectAttempts ≥ m

/-- The observable outcome of `scheduleReconnect`: the new state, whether a
retry timer was started, the pre-jitter delay of that timer, and the
identifiers of the retries-exhausted listeners that were invoked. -/
structure SchedOut where
  state : ClientState
  scheduled : Bool
  delayMs : Option Nat
  exhaustedFired : List Nat
deriving DecidableEq, Repr

/-- `NodeRealtimeClient.scheduleReconnect` (realtime.ts lines 299-312):
cancel any pending timer, then either — at the attempt cap — transition to
`disconnected` and fire every retries-exhausted listener, or compute the
backoff delay, increment the attempt counter and start the retry timer. -/
def scheduleReconnect (st : ClientState) : SchedOut :=
  let st0 := { st with timerPending := false }
  if atMaxAttempts st0 then
    { state := { st0 with status := RealtimeStatus.disconnected }
      scheduled := false
      delayMs := none
      exhaustedFired := st0.maxRetriesListeners }
  else
    { state := { st0 with
        reconnectAttempts := st0.reconnectAttempts + 1
        timerPending := true }
      scheduled := true
      delayMs := some (reconnectDelay st0.reconnectAttempts)
      exhaustedFired := [] }

/-- One iteration of the re-subscribe loop of `ws.onopen`
(realtime.ts lines 198-200): `if (sub.isSubscribed) sub.subscribe();`. -/
def resubStep (acc : ClientState × List Frame) (t : String) :
    ClientState × List Frame :=
  match findSub acc.1.subscriptions t with
  | none => acc
  | some sub =>
      if sub.isSubscribed then
        let r := subscribeStep acc.1 t
        (r.1, acc.2 ++ r.2)
      else acc

/-- `ws.onopen` (realtime.ts lines 190-202): set status `connected`, reset the
attempt counter, record the pong timestamp, start the heartbeat, flush the
outbound queue front-to-back over the socket, then run the re-subscribe loop
over every stored subscription.  The second component is the full sequence of
frames written to the socket, in order. -/
def onOpen (st : ClientState) (now : Nat) : ClientState × List Frame :=
  let st1 := { st with
    status := RealtimeStatus.connected
    reconnectAttempts := 0
    lastPong := now
    heartbeatOn := true }
  let flushed := st1.sendQueue
  let st2 := { st1 with sendQueue := [] }
  (st2.subscriptions.map Prod.fst).foldl resubStep (st2, flushed)

/-- An inbound frame as seen by `ws.onmessage` after JSON decoding:
a `pong`, a data frame, or any other frame type (ignored). -/
inductive InMessage where
  | pong
  | data (p : Payload)
  | other (s : String)
deriving DecidableEq, Repr

/-- `NodeRealtimeClient.handleMessage` (realtime.ts lines 271-280): a `pong`
refreshes the liveness timestamp; a `db_change`/`chat_message` frame is routed
by topic to the stored subscription's `_emit` (dropped silently when no
subscription exists); anything else is ignored.  The second component lists
the callback identifiers invoked during dispatch. -/
def handleMessageRun (st : ClientState) (m : InMessage) (now : Nat) :
    ClientState × List Nat :=
  match m with
  | InMessage.pong => ({ st with lastPong := now }, [])
  | InMessage.data p =>
      match findSub st.subscriptions p.topic with
      | none => (st, [])
      | some sub =>
          let r := sub.emitS p
          ({ st with subscriptions := updateSub st.subscriptions p.topic r.1 },
           r.2)
  | InMessage.other _ => (st, [])

/-- `ws.onclose` (realtime.ts lines 214-219): set status `reconnecting`, stop
the heartbeat, discard the socket, schedule a reconnect. -/
def onClose (st : ClientState) : ClientState :=
  let st1 := { st with
    status := RealtimeStatus.reconnecting
    heartbeatOn := false
    wsOpen := false }
  (scheduleReconnect st1).state

/-- The operations that mutate a `NodeRealtimeClient`: its public API calls
and the transport/timer events its handlers react to. -/
inductive Op where
  | opSend (f : Frame)
  | opChannel (t : String) (o : SubscriptionOptions)
  | opSubscribe (t : String)
  | opUnsubscribe (t : String)
  | opHandleMessage (m : InMessage) (now : Nat)
  | opConnectStart
  | opOnOpen (now : Nat)
  | opOnClose
  | opOnError
  | opDisconnect
  | opScheduleReconnect
  | opSetToken (s : String)
deriving DecidableEq, Repr

/-- The state transition of each operation, projecting away the emitted
frames and handler invocations.  `opConnectStart` is `_doConnect` up to
creating the socket (realtime.ts lines 164 and 188), `opOnError` is
`ws.onerror` (line 223), `opDisconnect` is `disconnect()` (lines 233-242),
`opSetToken` is `setToken` (lines 149-152). -/
def step (st : ClientState) : Op → ClientState
  | Op.opSend f => (sendStep st f).1
  | Op.opChannel t o => (channelStep st t o).1
  | Op.opSubscribe t => (subscribeStep st t).1
  | Op.opUnsubscribe t => (unsubscribeStep st t).1
  | Op.opHandleMessage m now => (handleMessageRun st m now).1
  | Op.opConnectStart =>
      { st with status := RealtimeStatus.connecting, wsOpen := true }
  | Op.opOnOpen now => (onOpen st now).1
  | Op.opOnClose => onClose st
  | Op.opOnError => { st with status := RealtimeStatus.disconnected }
  | Op.opDisconnect =>
      { st with
        status := RealtimeStatus.disconnected
        timerPending := false
        heartbeatOn := false
        wsOpen := false
        sendQueue := [] }
  | Op.opScheduleReconnect => (scheduleReconnect st).state
  | Op.opSetToken s => (sendStep { st with token := some s } (Frame.auth s)).1

/-! ## Concrete states used by the claim theorems -/

/-- A client that has used up its 3 configured attempts, with one
retries-exhausted listener registered. -/
def c7State : ClientState :=
  { projectId := "proj1", token := none
    status := RealtimeStatus.reconnecting
    wsOpen := false, heartbeatOn := false, timerPending := true
    reconnectAttempts := 3, sendQueue := [], subscriptions := []
    lastPong := 0, maxReconnectAttempts := some 3
    maxRetriesListeners := [7] }

/-- Recognizes a "subscribe" control frame. -/
def isSubscribeFrame : Frame → Bool
  | Frame.subscribeF _ _ => true
  | _ => false

/-- A subscription whose `_isSubscribed` flag is set at the moment a connect
succeeds (the state after a first connect/subscribe/close cycle). -/
def c1Sub : Subscription :=
  { topic := "table/orders/proj1"
    options := { event := none, filter := none }
    callbacks := [], isSubscribed := true }

/-- A reconnecting client holding `c1Sub` and one queued command. -/
def c1State : ClientState :=
  { projectId := "proj1", token := none
    status := RealtimeStatus.reconnecting
    wsOpen := true, heartbeatOn := false, timerPending := false
    reconnectAttempts := 1, sendQueue := [Frame.raw "cmd"]
    subscriptions := [("table/orders/proj1", c1Sub)]
    lastPong := 0, maxReconnectAttempts := none, maxRetriesListeners := [] }

/-- An idle client with one already-queued command. -/
def c2State : ClientState :=
  { projectId := "proj1", token := none
    status := RealtimeStatus.idle
    wsOpen := false, heartbeatOn := false, timerPending := false
    reconnectAttempts := 0, sendQueue := [Frame.raw "a"]
    subscriptions := [], lastPong := 0
    maxReconnectAttempts := none, maxRetriesListeners := [] }

/-- The §8 `insert` handler. -/
def c3InsertH : Handler := { id := 1, throws := false }

/-- The §8 wildcard handler. -/
def c3WildH : Handler := { id := 2, throws := false }

/-- The §8 `delete` handler. -/
def c3DeleteH : Handler := { id := 3, throws := false }

/-- The §8 subscription: topic `table/orders/proj1`, legacy filter kind
`insert`, with an insert, a delete and a wildcard handler registered. -/
def c3Sub : Subscription :=
  { topic := "table/orders/proj1"
    options := { event := some EventKind.INSERT, filter := none }
    callbacks := [(EventKind.INSERT, [c3InsertH]),
                  (EventKind.DELETE, [c3DeleteH]),
                  (EventKind.wild, [c3WildH])]
    isSubscribed := true }

/-- The §8 inbound frame:
`{type:"db_change", topic:"table/orders/proj1", operation:"insert", data:{id:1}}`. -/
def c3Payload : Payload :=
  { ptype := PType.dbChange, topic := "table/orders/proj1"
    operation := some EventKind.INSERT, data := "id:1" }

/-- A subscribed subscription with one registered insert handler. -/
def c4Sub : Subscription :=
  { topic := "table/orders/proj1"
    options := { event := none, filter := none }
    callbacks := [(EventKind.INSERT, [{ id := 4, throws := false }])]
    isSubscribed := true }

/-- A connected client holding `c4Sub`. -/
def c4State : ClientState :=
  { projectId := "proj1", token := none
    status := RealtimeStatus.connected
    wsOpen := true, heartbeatOn := true, timerPending := false
    reconnectAttempts := 0, sendQueue := []
    subscriptions := [("table/orders/proj1", c4Sub)]
    lastPong := 0, maxReconnectAttempts := none, maxRetriesListeners := [] }

/-- An insert frame matching `c4Sub`'s topic. -/
def c4Payload : Payload :=
  { ptype := PType.dbChange, topic := "table/orders/proj1"
    operation := some EventKind.INSERT, data := "id:2" }

/-- A reconnecting client at attempt count 2 with no configured cap. -/
def c5State : ClientState :=
  { projectId := "proj1", token := none
    status := RealtimeStatus.reconnecting
    wsOpen := false, heartbeatOn := false, timerPending := false
    reconnectAttempts := 2, sendQueue := [], subscriptions := []
    lastPong := 0, maxReconnectAttempts := none, maxRetriesListeners := [] }

/-- A subscription used to instantiate the dispatch-isolation theorem. -/
def c9Sub : Subscription :=
  { topic := "t", options := { event := none, filter := none }
    callbacks := [], isSubscribed := true }

/-- An update frame used by the dispatch-isolation witness. -/
def c9Payload : Payload :=
  { ptype := PType.dbChange, topic := "t"
    operation := some EventKind.UPDATE, data := "d" }

/-- A handler whose callback raises. -/
def c9Throwing : Handler := { id := 10, throws := true }

/-- A well-behaved handler registered after the raising one. -/
def c9Next : Handler := { id := 11, throws := false }

/-- A subscription stored with its creation-time options. -/
def c10Sub : Subscription :=
  { topic := "table/orders/proj1"
    options := { event := some EventKind.INSERT, filter := some "f0" }
    callbacks := [], isSubscribed := false }

/-- A client already holding `c10Sub` under its fully-qualified topic. -/
def c10State : ClientState :=
  { projectId := "proj1", token := none
    status := RealtimeStatus.idle
    wsOpen := false, heartbeatOn := false, timerPending := false
    reconnectAttempts := 0, sendQueue := []
    subscriptions := [("table/orders/proj1", c10Sub)]
    lastPong := 0, maxReconnectAttempts := none, maxRetriesListeners := [] }

/-! ## Shared lemmas -/

/-- The caught dispatch loop invokes every handler of the list exactly once,
in order, whether or not any of them raises. -/
theorem forEachCaught_eq_map (p : Payload) (hs : List Handler) :
    forEachCaught p hs = hs.map Handler.id := by
  induction hs with
  | nil => rfl
  | cons h rest ih =>
      unfold forEachCaught
      cases hr : runHandler h p <;> simp [ih]

/-- `subscribe()` on an already-subscribed subscription is a no-op. -/
theorem subscribeStep_subscribed {st : ClientState} {t : String}
    {sub : Subscription} (hf : findSub st.subscriptions t = some sub)
    (hs : sub.isSubscribed = true) : subscribeStep st t = (st, []) := by
  unfold subscribeStep
  rw [hf]
  simp [hs]

/-- Each iteration of the onopen re-subscribe loop is the identity: the loop
only visits subscriptions whose flag is already set, on which `subscribe()`
returns early. -/
theorem resubStep_id (acc : ClientState × List Frame) (t : String) :
    resubStep acc t = acc := by
  unfold resubStep
  cases hf : findSub acc.1.subscriptions t with
  | none => rfl
  | some sub =>
      by_cases hs : sub.isSubscribed
      · simp [hs, subscribeStep_subscribed hf hs]
      · simp [hs]

/-- Folding the re-subscribe loop over any topic list changes nothing. -/
theorem foldl_resubStep_id (ts : List String) (acc : ClientState × List Frame) :
    ts.foldl resubStep acc = acc := by
  induction ts generalizing acc with
  | nil => rfl
  | cons t rest ih => simp [List.foldl, resubStep_id, ih]

/-- `ws.onopen` fully characterized: status becomes `connected`, the attempt
counter resets, the queue drains, exactly the previously queued frames go to
the wire in order, and the subscription map is untouched. -/
theorem onOpen_spec (st : ClientState) (now : Nat) :
    onOpen st now =
      ({ st with
          status := RealtimeStatus.connected
          reconnectAttempts := 0
          lastPong := now
          heartbeatOn := true
          sendQueue := [] },
       st.sendQueue) := by
  unfold onOpen
  rw [foldl_resubStep_id]

/-- Updating the entry found at `t` makes a later lookup at `t` return the
new value. -/
theorem findSub_updateSub_self {l : List (String × Subscription)} {t : String}
    {sub : Subscription} (hf : findSub l t = some sub) (v : Subscription) :
    findSub (updateSub l t v) t = some v := by
  induction l with
  | nil => simp [findSub] at hf
  | cons p rest ih =>
      obtain ⟨k, w⟩ := p
      by_cases hk : k = t
      · simp [findSub, updateSub, hk]
      · simp [findSub, updateSub, hk] at hf ⊢
        exact ih hf

/-- Updating the entry found at `t` back to the value that was found there
changes nothing. -/
theorem updateSub_found_self {l : List (String × Subscription)} {t : String}
    {sub : Subscription} (hf : findSub l t = some sub) :
    updateSub l t sub = l := by
  induction l with
  | nil => rfl
  | cons p rest ih =>
      obtain ⟨k, w⟩ := p
      by_cases hk : k = t
      · simp [findSub, hk] at hf
        simp [updateSub, hk, hf]
      · simp [findSub, hk] at hf
        simp [updateSub, hk, ih hf]

/-- Dispatch on a subscription with no registered callbacks invokes
nothing. -/
theorem emitS_no_callbacks (sub : Subscription) (p : Payload)
    (hc : sub.callbacks = []) : (sub.emitS p).2 = [] := by
  cases hop : p.operation <;>
    simp [Subscription.emitS, hc, hop, getCbs, forEachCaught]

/-- `_send` never touches the attempt counter. -/
theorem sendStep_attempts (st : ClientState) (f : Frame) :
    (sendStep st f).1.reconnectAttempts = st.reconnectAttempts := by
  unfold sendStep
  split <;> rfl

/-- `atMaxAttempts` only reads the cap and the counter. -/
theorem atMaxAttempts_congr (st st' : ClientState)
    (h1 : st.maxReconnectAttempts = st'.maxReconnectAttempts)
    (h2 : st.reconnectAttempts = st'.reconnectAttempts) :
    atMaxAttempts st = atMaxAttempts st' := by
  unfold atMaxAttempts
  rw [h1, h2]

/-- Appending a fresh entry for an absent key makes lookup find it. -/
theorem findSub_append_fresh {l : List (String × Subscription)} {t : String}
    (hf : findSub l t = none) (v : Subscription) :
    findSub (l ++ [(t, v)]) t = some v := by
  induction l with
  | nil => simp [findSub]
  | cons p rest ih =>
      obtain ⟨k, w⟩ := p
      by_cases hk : k = t
      · simp [findSub, hk] at hf
      · simp [findSub, hk] at hf ⊢
        exact ih hf

/-! ## Claim theorems -/

/-- C6: the reconnect delay before jitter is `min(1000 × 2^n, 30000)` ms —
1000, 2000, 4000 ms for attempts 0, 1, 2 and 30000 ms for all sufficiently
large n (every n ≥ 5) — and the added jitter always lies in
`[0, delay × 0.3)` for any `Math.random()` sample in `[0, 1)`. -/
theorem c6_backoff_delay_and_jitter :
    reconnectDelay 0 = 1000 ∧ reconnectDelay 1 = 2000 ∧
    reconnectDelay 2 = 4000 ∧
    (∀ n : Nat, 5 ≤ n → reconnectDelay n = 30000) ∧
    (∀ (n : Nat) (r : ℚ), 0 ≤ r → r < 1 →
      0 ≤ jitterOf n r ∧
      jitterOf n r < (reconnectDelay n : ℚ) * (3 / 10)) := by
  refine ⟨rfl, rfl, rfl, ?_, ?_⟩
  · intro n hn
    have h32 : (32000 : Nat) ≤ 1000 * 2 ^ n := by
      calc (32000 : Nat) = 1000 * 2 ^ 5 := by norm_num
        _ ≤ 1000 * 2 ^ n :=
            Nat.mul_le_mul_left 1000 (Nat.pow_le_pow_right (by norm_num) hn)
    unfold reconnectDelay
    exact Nat.min_eq_right (le_trans (by norm_num) h32)
  · intro n r hr0 hr1
    have hD : 0 < reconnectDelay n := by
      have h2 : 0 < 2 ^ n := pow_pos (by norm_num) n
      unfold reconnectDelay
      omega
    have hDq : (0 : ℚ) < (reconnectDelay n : ℚ) * (3 / 10) := by
      have hc : (0 : ℚ) < (reconnectDelay n : ℚ) := by exact_mod_cast hD
      linarith
    refine ⟨?_, ?_⟩
    · unfold jitterOf
      exact mul_nonneg hDq.le hr0
    · unfold jitterOf
      exact mul_lt_of_lt_one_right hDq hr1

/-- Witness for C6 at attempt 7 and sample 1/2. -/
theorem c6_backoff_witness :
    reconnectDelay 7 = 30000 ∧
    0 ≤ jitterOf 7 (1 / 2) ∧
    jitterOf 7 (1 / 2) < (reconnectDelay 7 : ℚ) * (3 / 10) :=
  ⟨c6_backoff_delay_and_jitter.2.2.2.1 7 (by norm_num),
   (c6_backoff_delay_and_jitter.2.2.2.2 7 (1 / 2) (by norm_num)
     (by norm_num)).1,
   (c6_backoff_delay_and_jitter.2.2.2.2 7 (1 / 2) (by norm_num)
     (by norm_num)).2⟩

/-- C7: when the attempt counter has reached the configured maximum,
`scheduleReconnect` transitions to the terminal `disconnected` state and
invokes every registered retries-exhausted listener; it does not increment
the counter and leaves no timer pending. -/
theorem c7_retries_exhausted (st : ClientState) (m : Nat)
    (hmax : st.maxReconnectAttempts = some m)
    (hreached : m ≤ st.reconnectAttempts) :
    (scheduleReconnect st).state.status = RealtimeStatus.disconnected ∧
    (scheduleReconnect st).exhaustedFired = st.maxRetriesListeners ∧
    (scheduleReconnect st).scheduled = false ∧
    (scheduleReconnect st).state.reconnectAttempts = st.reconnectAttempts ∧
    (scheduleReconnect st).state.timerPending = false ∧
    (scheduleReconnect st).delayMs = none := by
  have hA : atMaxAttempts { st with timerPending := false } = true := by
    simp [atMaxAttempts, hmax, ge_iff_le, hreached]
  unfold scheduleReconnect
  simp [hA]

/-- Witness for C7 on `c7State`. -/
theorem c7_retries_exhausted_witness :
    (scheduleReconnect c7State).state.status = RealtimeStatus.disconnected ∧
    (scheduleReconnect c7State).exhaustedFired = [7] ∧
    (scheduleReconnect c7State).scheduled = false ∧
    (scheduleReconnect c7State).state.reconnectAttempts = 3 :=
  ⟨(c7_retries_exhausted c7State 3 rfl (by decide)).1,
   (c7_retries_exhausted c7State 3 rfl (by decide)).2.1,
   (c7_retries_exhausted c7State 3 rfl (by decide)).2.2.1,
   (c7_retries_exhausted c7State 3 rfl (by decide)).2.2.2.1⟩

/-- C8: two successive `channel(T)` calls on the same manager return the same
subscription and the same state; one call grows the subscription map by at
most one entry, and the stored entry is exactly the returned subscription. -/
theorem c8_channel_idempotent (st : ClientState) (topic : String)
    (o1 o2 : SubscriptionOptions) :
    (channelStep (channelStep st topic o1).1 topic o2).2 =
      (channelStep st topic o1).2 ∧
    (channelStep (channelStep st topic o1).1 topic o2).1 =
      (channelStep st topic o1).1 ∧
    (channelStep st topic o1).1.subscriptions.length ≤
      st.subscriptions.length + 1 ∧
    findSub (channelStep st topic o1).1.subscriptions
        (fullTopicOf st.projectId topic) =
      some (channelStep st topic o1).2 := by
  unfold channelStep
  cases hf : findSub st.subscriptions (fullTopicOf st.projectId topic) with
  | some sub => simp [hf]
  | none =>
      have hfind := findSub_append_fresh hf
        ({ topic := fullTopicOf st.projectId topic, options := o1
           callbacks := [], isSubscribed := false } : Subscription)
      simp [hf, hfind]


/-- C1 (code bug evidence): on a successful open with a subscription whose
`isSubscribed` flag is true, the open handler sends only the queued command
and no "subscribe" control frame at all — `sub.subscribe()` returns early
because `_isSubscribed` is already true, so the re-subscribe loop of
`ws.onopen` is a no-op. -/
theorem c1_no_resubscribe_frame :
    c1Sub.isSubscribed = true ∧
    (onOpen c1State 9).2 = [Frame.raw "cmd"] ∧
    (onOpen c1State 9).2.filter isSubscribeFrame = [] := by
  refine ⟨rfl, ?_, ?_⟩ <;> rw [onOpen_spec] <;> rfl

/-- C2: `send(c)` while not connected transmits nothing immediately and
appends `c` at the tail of the outbound queue; the next successful open
transmits the whole queue — `c` included — exactly once in FIFO order and
leaves the queue empty. -/
theorem c2_send_queued_then_flushed (st : ClientState) (f : Frame)
    (h : st.status ≠ RealtimeStatus.connected) :
    (sendStep st f).2 = [] ∧
    (sendStep st f).1.sendQueue = st.sendQueue ++ [f] ∧
    (∀ now : Nat,
      (onOpen (sendStep st f).1 now).2 = st.sendQueue ++ [f] ∧
      ((onOpen (sendStep st f).1 now).1).sendQueue = []) := by
  have hc : ¬(st.wsOpen ∧ st.status = RealtimeStatus.connected) :=
    fun hh => h hh.2
  refine ⟨?_, ?_, ?_⟩
  · simp [sendStep, hc]
  · simp [sendStep, hc]
  · intro now
    rw [onOpen_spec]
    simp [sendStep, hc]


/-- Witness for C2: queueing a second command while idle and then opening
flushes both commands in order. -/
theorem c2_send_queued_witness :
    (sendStep c2State (Frame.raw "b")).2 = [] ∧
    (onOpen (sendStep c2State (Frame.raw "b")).1 5).2 =
      [Frame.raw "a", Frame.raw "b"] ∧
    ((onOpen (sendStep c2State (Frame.raw "b")).1 5).1).sendQueue = [] := by
  have h := c2_send_queued_then_flushed c2State (Frame.raw "b") (by decide)
  exact ⟨h.1, (h.2.2 5).1, (h.2.2 5).2⟩

/-- C3: dispatching a frame whose operation is a concrete kind (not the
wildcard) invokes exactly the handlers registered under that kind followed by
the handlers registered under the wildcard, each once; a frame without a
registrable operation kind (a chat message) reaches only the wildcard
handlers; and dispatch is independent of the legacy per-subscription
`options.event` filter. -/
theorem c3_dispatch_exact_and_wildcard (sub : Subscription) (p : Payload) :
    (∀ e : EventKind, p.operation = some e → e ≠ EventKind.wild →
      (sub.emitS p).2 =
        (getCbs sub.callbacks e ++
          getCbs sub.callbacks EventKind.wild).map Handler.id) ∧
    (p.operation = none →
      (sub.emitS p).2 =
        (getCbs sub.callbacks EventKind.wild).map Handler.id) ∧
    (∀ o : SubscriptionOptions,
      (Subscription.emitS { sub with options := o } p).2 =
        (sub.emitS p).2) := by
  refine ⟨?_, ?_, ?_⟩
  · intro e he _
    simp [Subscription.emitS, he, forEachCaught_eq_map]
  · intro he
    simp [Subscription.emitS, he, forEachCaught_eq_map]
  · intro o
    rfl

/-- Witness for C3 on the §8 scenario: the insert handler (id 1) and the
wildcard handler (id 2) each fire exactly once with the payload; the delete
handler (id 3) does not fire. -/
theorem c3_dispatch_witness :
    (c3Sub.emitS c3Payload).2 = [1, 2] ∧
    (c3Sub.emitS c3Payload).2.count 1 = 1 ∧
    (c3Sub.emitS c3Payload).2.count 2 = 1 ∧
    (c3Sub.emitS c3Payload).2.count 3 = 0 := by
  have h := (c3_dispatch_exact_and_wildcard c3Sub c3Payload).1
    EventKind.INSERT rfl (by decide)
  rw [h]
  decide

/-- C9: a raising handler is caught by the dispatch loop — every handler
after it is still invoked for the same frame — and dispatch leaves the
subscription and the manager state unchanged. -/
theorem c9_throwing_handler_isolated (sub : Subscription) (p : Payload) :
    ((sub.emitS p).1 = sub) ∧
    (∀ (st : ClientState) (now : Nat),
      (handleMessageRun st (InMessage.data p) now).1 = st) ∧
    (∀ (pre post : List Handler) (h : Handler), h.throws = true →
      forEachCaught p (pre ++ h :: post) =
        pre.map Handler.id ++ h.id :: post.map Handler.id) := by
  refine ⟨rfl, ?_, ?_⟩
  · intro st now
    simp only [handleMessageRun]
    cases hf : findSub st.subscriptions p.topic with
    | none => rfl
    | some s =>
        have hu := updateSub_found_self hf
        simp [Subscription.emitS, hu]
  · intro pre post h _
    simp [forEachCaught_eq_map]

/-- Witness for C9: with a raising handler (id 10) followed by a sound one
(id 11), both are invoked, in order. -/
theorem c9_throwing_handler_witness :
    c9Throwing.throws = true ∧
    forEachCaught c9Payload [c9Throwing, c9Next] = [10, 11] := by
  have h := (c9_throwing_handler_isolated c9Sub c9Payload).2.2
    [] [c9Next] c9Throwing rfl
  exact ⟨rfl, h⟩

/-- C4: `unsubscribe()` on a subscribed subscription hands exactly one
"unsubscribe" control frame to the single send path (to the wire when
connected, to the queue otherwise), clears the flag and every registered
handler, and a subsequent inbound frame on that topic invokes zero
handlers. -/
theorem c4_unsubscribe_full_reset (st : ClientState) (t : String)
    (sub : Subscription) (hf : findSub st.subscriptions t = some sub)
    (hs : sub.isSubscribed = true) :
    ((unsubscribeStep st t).2 ++
      List.drop st.sendQueue.length (unsubscribeStep st t).1.sendQueue =
      [Frame.unsubscribeF sub.topic]) ∧
    (findSub (unsubscribeStep st t).1.subscriptions t =
      some { sub with isSubscribed := false, callbacks := [] }) ∧
    (∀ p : Payload,
      (Subscription.emitS { sub with isSubscribed := false, callbacks := [] }
        p).2 = []) ∧
    (∀ (p : Payload) (now : Nat), p.topic = t →
      (handleMessageRun (unsubscribeStep st t).1 (InMessage.data p) now).2 =
        []) := by
  have hfind : findSub (unsubscribeStep st t).1.subscriptions t =
      some { sub with isSubscribed := false, callbacks := [] } := by
    unfold unsubscribeStep
    rw [hf]
    by_cases hcon : st.wsOpen ∧ st.status = RealtimeStatus.connected <;>
      simp [hs, sendStep, hcon, findSub_updateSub_self hf]
  refine ⟨?_, hfind, ?_, ?_⟩
  · unfold unsubscribeStep
    rw [hf]
    by_cases hcon : st.wsOpen ∧ st.status = RealtimeStatus.connected <;>
      simp [hs, sendStep, hcon, List.drop_length, List.drop_left]
  · intro p
    exact emitS_no_callbacks _ p rfl
  · intro p now hp
    simp only [handleMessageRun, hp, hfind]
    exact emitS_no_callbacks _ p rfl

/-- Witness for C4 on the connected client `c4State`: one unsubscribe frame
is emitted and a subsequent matching insert frame invokes no handler. -/
theorem c4_unsubscribe_witness :
    ((unsubscribeStep c4State "table/orders/proj1").2 ++
      List.drop c4State.sendQueue.length
        (unsubscribeStep c4State "table/orders/proj1").1.sendQueue =
      [Frame.unsubscribeF "table/orders/proj1"]) ∧
    (handleMessageRun (unsubscribeStep c4State "table/orders/proj1").1
      (InMessage.data c4Payload) 3).2 = [] :=
  ⟨(c4_unsubscribe_full_reset c4State "table/orders/proj1" c4Sub (by decide)
      rfl).1,
   (c4_unsubscribe_full_reset c4State "table/orders/proj1" c4Sub (by decide)
      rfl).2.2.2 c4Payload 3 rfl⟩

/-- C10: `channel(T, opts)` on a topic whose subscription already exists
returns the stored subscription with its original options and an unchanged
state; the new options argument plays no role in the result. -/
theorem c10_channel_ignores_new_options (st : ClientState) (topic : String)
    (opts : SubscriptionOptions) (sub : Subscription)
    (hf : findSub st.subscriptions (fullTopicOf st.projectId topic) =
      some sub) :
    channelStep st topic opts = (st, sub) ∧
    (∀ opts' : SubscriptionOptions,
      channelStep st topic opts' = channelStep st topic opts) ∧
    (channelStep st topic opts).2.options = sub.options := by
  refine ⟨?_, ?_, ?_⟩ <;> simp [channelStep, hf]

/-- Witness for C10: asking again for `orders` with different options
returns `c10Sub` with its creation-time options. -/
theorem c10_channel_witness :
    channelStep c10State "orders"
      { event := some EventKind.DELETE, filter := some "f1" } =
      (c10State, c10Sub) ∧
    (channelStep c10State "orders"
      { event := some EventKind.DELETE, filter := some "f1" }).2.options =
      { event := some EventKind.INSERT, filter := some "f0" } :=
  ⟨(c10_channel_ignores_new_options c10State "orders"
      { event := some EventKind.DELETE, filter := some "f1" } c10Sub
      (by decide)).1,
   (c10_channel_ignores_new_options c10State "orders"
      { event := some EventKind.DELETE, filter := some "f1" } c10Sub
      (by decide)).2.2⟩

/-- C5: the attempt counter is 0 immediately after the `connected` transition
(`ws.onopen`); a scheduler invocation that starts a retry timer increments it
by exactly 1 (also when reached through `ws.onclose`), an exhausted scheduler
invocation leaves it unchanged; and no other operation of the client changes
it. -/
theorem c5_attempt_counter (st : ClientState) :
    (∀ now : Nat, (step st (Op.opOnOpen now)).reconnectAttempts = 0) ∧
    ((scheduleReconnect st).scheduled = true →
      (step st Op.opScheduleReconnect).reconnectAttempts =
        st.reconnectAttempts + 1) ∧
    ((scheduleReconnect st).scheduled = false →
      (step st Op.opScheduleReconnect).reconnectAttempts =
        st.reconnectAttempts) ∧
    ((step st Op.opOnClose).reconnectAttempts =
      if atMaxAttempts st then st.reconnectAttempts
      else st.reconnectAttempts + 1) ∧
    (∀ f : Frame,
      (step st (Op.opSend f)).reconnectAttempts = st.reconnectAttempts) ∧
    (∀ (t : String) (o : SubscriptionOptions),
      (step st (Op.opChannel t o)).reconnectAttempts =
        st.reconnectAttempts) ∧
    (∀ t : String,
      (step st (Op.opSubscribe t)).reconnectAttempts =
        st.reconnectAttempts) ∧
    (∀ t : String,
      (step st (Op.opUnsubscribe t)).reconnectAttempts =
        st.reconnectAttempts) ∧
    (∀ (m : InMessage) (now : Nat),
      (step st (Op.opHandleMessage m now)).reconnectAttempts =
        st.reconnectAttempts) ∧
    ((step st Op.opConnectStart).reconnectAttempts =
      st.reconnectAttempts) ∧
    ((step st Op.opOnError).reconnectAttempts = st.reconnectAttempts) ∧
    ((step st Op.opDisconnect).reconnectAttempts = st.reconnectAttempts) ∧
    (∀ s : String,
      (step st (Op.opSetToken s)).reconnectAttempts =
        st.reconnectAttempts) := by
  have hAeq : atMaxAttempts { st with timerPending := false } =
      atMaxAttempts st := atMaxAttempts_congr _ _ rfl rfl
  refine ⟨?_, ?_, ?_, ?_, ?_, ?_, ?_, ?_, ?_, rfl, rfl, rfl, ?_⟩
  · intro now
    simp [step, onOpen_spec]
  · intro h
    rcases Bool.eq_false_or_eq_true (atMaxAttempts st) with hA | hA
    · have hA' : atMaxAttempts { st with timerPending := false } = true :=
        hAeq.trans hA
      simp [scheduleReconnect, hA'] at h
    · have hA' : atMaxAttempts { st with timerPending := false } = false :=
        hAeq.trans hA
      simp [step, scheduleReconnect, hA']
  · intro h
    rcases Bool.eq_false_or_eq_true (atMaxAttempts st) with hA | hA
    · have hA' : atMaxAttempts { st with timerPending := false } = true :=
        hAeq.trans hA
      simp [step, scheduleReconnect, hA']
    · have hA' : atMaxAttempts { st with timerPending := false } = false :=
        hAeq.trans hA
      simp [scheduleReconnect, hA'] at h
  · simp only [step, onClose, scheduleReconnect]
    have hA2 : atMaxAttempts
        { st with
          status := RealtimeStatus.reconnecting
          heartbeatOn := false
          wsOpen := false
          timerPending := false } = atMaxAttempts st :=
      atMaxAttempts_congr _ _ rfl rfl
    rcases Bool.eq_false_or_eq_true (atMaxAttempts st) with hA | hA <;>
      simp [hA2, hA]
  · intro f
    simp [step, sendStep_attempts]
  · intro t o
    simp only [step, channelStep]
    split <;> rfl
  · intro t
    simp only [step, subscribeStep]
    split
    · rfl
    · split
      · rfl
      · simp [sendStep_attempts]
  · intro t
    simp only [step, unsubscribeStep]
    split
    · rfl
    · split
      · simp [sendStep_attempts]
      · rfl
  · intro m now
    cases m with
    | pong => rfl
    | data p =>
        simp only [step, handleMessageRun]
        split <;> rfl
    | other s => rfl
  · intro s
    simp [step, sendStep_attempts]

/-- Witness for C5 on `c5State`: a scheduling invocation takes the counter
from 2 to 3, and a successful open resets it to 0. -/
theorem c5_attempt_counter_witness :
    (step c5State (Op.opOnOpen 4)).reconnectAttempts = 0 ∧
    (step c5State Op.opScheduleReconnect).reconnectAttempts = 3 :=
  ⟨(c5_attempt_counter c5State).1 4,
   (c5_attempt_counter c5State).2.1 (by decide)⟩

end Realtime
